import Mathlib

/-!
Verification of the external-listings adapter
(`app/services/external_listings_service.py`) of the MojDom backend.

The adapter is embedded shallowly:
* JSON scalars/arrays from the provider are a dynamic value type `DynVal`
  (listing records are association lists `Listing`);
* Python exceptions are an explicit `PyError` type; fallible code returns
  `Except PyError α`; each `try/except` block is rendered by matching on the
  `Except` value exactly where the Python handler sits;
* the DB-backed lookups (`DistrictMappingService.get_district_names`,
  `DbRegion.ReadList`) are passed in as explicit oracles (a name cache
  function and a region list);
* the HTTP layer is an explicit `FetchResult` value describing what
  `client.get` did (raised, or returned a status plus a body whose JSON
  decoding may itself fail);
* naive `datetime` values are `PyDatetime`; `datetime.timestamp()` is
  modelled as the UTC epoch conversion (exact for the post-1970 dates used
  here); `datetime.utcnow()` is an explicit `now` parameter.
-/

namespace MojDom

/-! ## Dynamic (JSON-ish) values and Python exceptions -/

/-- A dynamic Python/JSON value as received from the provider. -/
inductive DynVal where
  | vnull : DynVal
  | vbool : Bool → DynVal
  | vint : Int → DynVal
  | vstr : String → DynVal
  | vlist : List DynVal → DynVal

/-- Python exception classes that the adapter's code paths can raise.
`httpx.TimeoutException` is a subclass of `Exception`, so every constructor
here is caught by a bare `except Exception` handler. -/
inductive PyError where
  | timeoutException : PyError     -- httpx.TimeoutException
  | transportError : PyError       -- other httpx transport errors
  | keyError : PyError
  | attributeError : PyError
  | indexError : PyError
  | typeError : PyError
  | valueError : PyError           -- includes pydantic ValidationError
  | jsonError : PyError            -- resp.json() decode failure
deriving DecidableEq, Repr

/-- The `ApiException` raised by the service (message only; status is fixed). -/
structure ApiException where
  message : String
deriving DecidableEq, Repr

/-- Python truthiness of a dynamic value. -/
def truthy : DynVal → Bool
  | .vnull => false
  | .vbool b => b
  | .vint n => n ≠ 0
  | .vstr s => s ≠ ""
  | .vlist l => !l.isEmpty

/-- A provider listing record: `Dict[str, Any]` as an association list. -/
def Listing : Type := List (String × DynVal)

/-- `listing.get(k, d)`: first binding of `k`, or the default. -/
def dictGet (l : Listing) (k : String) (d : DynVal) : DynVal :=
  match List.find? (fun p => p.1 == k) l with
  | some p => p.2
  | none => d

/-- The raw binding of a key, `none` when the key is absent. -/
def dictLookup (l : Listing) (k : String) : Option DynVal :=
  (List.find? (fun p => p.1 == k) l).map (fun p => p.2)

/-- Python `x[0]`: head of a list or first character of a string;
`IndexError` when empty, `TypeError` on non-subscriptable values. -/
def subscript0 : DynVal → Except PyError DynVal
  | .vlist [] => .error .indexError
  | .vlist (x :: _) => .ok x
  | .vstr s =>
    match s.data with
    | [] => .error .indexError
    | c :: _ => .ok (.vstr (String.mk [c]))
  | _ => .error .typeError

/-- Python `a or b` on dynamic values. -/
def pyOr (a b : DynVal) : DynVal := if truthy a then a else b

/-! ## Naive datetimes and `datetime.strptime`

`_parse_datetime` tries four formats in order:
`"%Y-%m-%dT%H:%M:%S.%fZ"`, `"%Y-%m-%dT%H:%M:%SZ"`, `"%Y-%m-%d %H:%M:%S"`,
`"%Y-%m-%d"`; each numeric directive consumes a bounded run of digits and the
whole string must be consumed; `datetime` construction validates ranges
(month length, leap years), raising `ValueError` which `strptime` surfaces
and the caller treats as "try the next format". -/

structure PyDatetime where
  year : Nat
  month : Nat
  day : Nat
  hour : Nat
  minute : Nat
  second : Nat
  micro : Nat
deriving DecidableEq, Repr

/-- In Python 3 a `datetime` object is always truthy. -/
def datetimeTruthy (_ : PyDatetime) : Bool := true

def isLeap (y : Nat) : Bool :=
  y % 4 == 0 && (y % 100 != 0 || y % 400 == 0)

def daysInMonth (y m : Nat) : Nat :=
  match m with
  | 1 => 31
  | 2 => if isLeap y then 29 else 28
  | 3 => 31
  | 4 => 30
  | 5 => 31
  | 6 => 30
  | 7 => 31
  | 8 => 31
  | 9 => 30
  | 10 => 31
  | 11 => 30
  | 12 => 31
  | _ => 0

/-- Days since 1970-01-01 of a civil date (proleptic Gregorian); the
standard era/year-of-era computation, valid for years ≥ 1. -/
def daysFromCivil (y m d : Nat) : Int :=
  let yAdj : Nat := if m ≤ 2 then y - 1 else y
  let era : Nat := yAdj / 400
  let yoe : Nat := yAdj % 400
  let mp : Nat := (m + 9) % 12
  let doy : Nat := (153 * mp + 2) / 5 + d - 1
  let doe : Nat := yoe * 365 + yoe / 4 - yoe / 100 + doy
  (Int.ofNat (era * 146097 + doe)) - 719468

/-- `int(dt.timestamp() * 1000)` with the naive datetime read as UTC. -/
def timestampMillis (dt : PyDatetime) : Int :=
  (daysFromCivil dt.year dt.month dt.day * 86400
      + Int.ofNat (dt.hour * 3600 + dt.minute * 60 + dt.second)) * 1000
    + Int.ofNat (dt.micro / 1000)

/-- `datetime` constructor validation (`ValueError` on out-of-range). -/
def mkDatetime (y m d h mi s micro : Nat) : Option PyDatetime :=
  if 1 ≤ y ∧ y ≤ 9999 ∧ 1 ≤ m ∧ m ≤ 12 ∧ 1 ≤ d ∧ d ≤ daysInMonth y m
      ∧ h ≤ 23 ∧ mi ≤ 59 ∧ s ≤ 59 ∧ micro ≤ 999999 then
    some ⟨y, m, d, h, mi, s, micro⟩
  else
    none

def digitsToNat (ds : List Char) : Nat :=
  ds.foldl (fun acc c => acc * 10 + (c.toNat - 48)) 0

/-- Consume up to `n` leading digits (maximal munch). -/
def takeDigits : Nat → List Char → List Char × List Char
  | 0, cs => ([], cs)
  | _ + 1, [] => ([], [])
  | n + 1, c :: rest =>
    if c.isDigit then
      let p := takeDigits n rest
      (c :: p.1, p.2)
    else
      ([], c :: rest)

/-- A numeric directive of at most `maxLen` digits with value in `[lo, hi]`. -/
def parseNum (maxLen lo hi : Nat) (cs : List Char) : Option (Nat × List Char) :=
  let p := takeDigits maxLen cs
  if p.1 = [] then none
  else
    let v := digitsToNat p.1
    if lo ≤ v ∧ v ≤ hi then some (v, p.2) else none

/-- `%Y`: exactly four digits. -/
def parseYear (cs : List Char) : Option (Nat × List Char) :=
  let p := takeDigits 4 cs
  if p.1.length = 4 then some (digitsToNat p.1, p.2) else none

/-- `%f`: one to six digits, right-padded to microseconds. -/
def parseFrac (cs : List Char) : Option (Nat × List Char) :=
  let p := takeDigits 6 cs
  if p.1 = [] then none
  else some (digitsToNat p.1 * 10 ^ (6 - p.1.length), p.2)

def expectChar (c : Char) : List Char → Option (List Char)
  | [] => none
  | d :: rest => if d = c then some rest else none

/-- `%Y-%m-%d` prefix shared by all four formats. -/
def parseDatePart (cs : List Char) : Option (Nat × Nat × Nat × List Char) := do
  let (y, cs) ← parseYear cs
  let cs ← expectChar '-' cs
  let (m, cs) ← parseNum 2 1 12 cs
  let cs ← expectChar '-' cs
  let (d, cs) ← parseNum 2 1 31 cs
  some (y, m, d, cs)

/-- `%H:%M:%S` time-of-day part. -/
def parseTimePart (cs : List Char) : Option (Nat × Nat × Nat × List Char) := do
  let (h, cs) ← parseNum 2 0 23 cs
  let cs ← expectChar ':' cs
  let (mi, cs) ← parseNum 2 0 59 cs
  let cs ← expectChar ':' cs
  let (s, cs) ← parseNum 2 0 59 cs
  some (h, mi, s, cs)

/-- `"%Y-%m-%dT%H:%M:%S.%fZ"` -/
def strptimeIsoFrac (s : String) : Option PyDatetime := do
  let (y, m, d, cs) ← parseDatePart s.data
  let cs ← expectChar 'T' cs
  let (h, mi, sec, cs) ← parseTimePart cs
  let cs ← expectChar '.' cs
  let (micro, cs) ← parseFrac cs
  let cs ← expectChar 'Z' cs
  if cs.isEmpty then mkDatetime y m d h mi sec micro else none

/-- `"%Y-%m-%dT%H:%M:%SZ"` -/
def strptimeIsoZ (s : String) : Option PyDatetime := do
  let (y, m, d, cs) ← parseDatePart s.data
  let cs ← expectChar 'T' cs
  let (h, mi, sec, cs) ← parseTimePart cs
  let cs ← expectChar 'Z' cs
  if cs.isEmpty then mkDatetime y m d h mi sec 0 else none

/-- `"%Y-%m-%d %H:%M:%S"` -/
def strptimeSpace (s : String) : Option PyDatetime := do
  let (y, m, d, cs) ← parseDatePart s.data
  let cs ← expectChar ' ' cs
  let (h, mi, sec, cs) ← parseTimePart cs
  if cs.isEmpty then mkDatetime y m d h mi sec 0 else none

/-- `"%Y-%m-%d"` -/
def strptimeDateOnly (s : String) : Option PyDatetime := do
  let (y, m, d, cs) ← parseDatePart s.data
  if cs.isEmpty then mkDatetime y m d 0 0 0 0 else none

/-- The format chain of `_parse_datetime`: first matching format wins. -/
def parseDatetimeFormats (s : String) : Option PyDatetime :=
  (strptimeIsoFrac s) <|> (strptimeIsoZ s) <|> (strptimeSpace s) <|> (strptimeDateOnly s)

/-- `_parse_datetime`: falsy input → `utcnow()`; a string is run through the
format chain, falling back to `utcnow()` when nothing matches; a truthy
non-string makes `strptime` raise `TypeError`, which the surrounding
`except Exception` turns into `utcnow()` as well.  The function never
raises and never returns `None`. -/
def parseDatetimeDyn (now : PyDatetime) (v : DynVal) : PyDatetime :=
  if ¬ truthy v then now
  else
    match v with
    | .vstr s => (parseDatetimeFormats s).getD now
    | _ => now

/-! ## Request schemas (`app/schemas/api_schemas.py`) -/

-- `LoadAdvertsDirection` (`IntEnum`): the request carries a plain `int`
-- compared against these values.
namespace LoadAdvertsDirection

def Prev : Int := 1
def Next : Int := 2
def Latest : Int := 3

end LoadAdvertsDirection

/-- `RangeModel`: both bounds are `Optional[int]` with non-null pydantic
defaults (`from=0`, `to=2**31-1`).  The Python attribute `to` is spelled
`to_` here because `to` is reserved. -/
structure RangeModel where
  from_ : Option Int
  to_ : Option Int
deriving DecidableEq, Repr

/-- Pydantic construction of a `RangeModel` from a JSON payload: an
*omitted* field (outer `none`) receives the schema default, an explicit
`null` (inner `none`) stays `None`. -/
def mkRangeModel (fromField toField : Option (Option Int)) : RangeModel :=
  { from_ := fromField.getD (some 0)
    to_ := toField.getD (some (2 ^ 31 - 1)) }

structure FilterModel where
  CountryId : Int
  RegionId : Int
  Districts : Option (List Int) := none
  Types : Option (List Int) := none
  Rooms : Option (List Int) := none
  Agency : Bool := false
  Area : Option RangeModel := none
  Price : Option RangeModel := none
deriving DecidableEq, Repr

structure ReadAdvertsRequest where
  AdvertId : Option Int := none
  Direction : Int
  LastViewId : Option Int := none
deriving DecidableEq, Repr

/-- A row of `dic_regions` as used by the adapter (id and the multilingual
`names` array). -/
structure DbRegion where
  id : Int
  names : List String
deriving DecidableEq, Repr

/-! ## Building-type tables -/

/-- The provider's `BuildingType` enumeration (string values). -/
inductive BuildingType where
  | BLOCK
  | APARTMENT_BUILDING
  | TENEMENT
  | HOUSE
  | INFILL
  | RIBBON
  | LOFT
  | WOLNOSTOJACY
  | OTHER
deriving DecidableEq, Repr

def BuildingType.val : BuildingType → String
  | .BLOCK => "BLOCK"
  | .APARTMENT_BUILDING => "APARTMENT_BUILDING"
  | .TENEMENT => "TENEMENT"
  | .HOUSE => "HOUSE"
  | .INFILL => "INFILL"
  | .RIBBON => "RIBBON"
  | .LOFT => "LOFT"
  | .WOLNOSTOJACY => "WOLNOSTOJACY"
  | .OTHER => "OTHER"

/-- `self.reverse_building_type_mapping`: internal type id → curated list of
external building types; absent for unmapped ids. -/
def reverse_building_type_mapping : Int → Option (List BuildingType)
  | 1 => some [.OTHER]
  | 2 => some [.BLOCK, .APARTMENT_BUILDING, .INFILL, .RIBBON, .LOFT]
  | 3 => some [.TENEMENT, .HOUSE, .WOLNOSTOJACY]
  | _ => none

/-- The list-comprehension at lines 173–178: for each requested type id that
has a reverse-mapping entry, emit that entry's string values. -/
def typesExpansion (types : List Int) : List String :=
  types.flatMap fun t =>
    match reverse_building_type_mapping t with
    | some bts => bts.map BuildingType.val
    | none => []

/-! ## Query-parameter builder (`_build_query_filters` and friends)

The Python `params` dict is a record of optional entries: a field being
`none` is the key being absent. -/

structure QueryParams where
  offer_type : Option String := none
  building_type : Option (List String) := none
  min_price : Option Int := none
  max_price : Option Int := none
  min_area : Option Int := none
  max_area : Option Int := none
  rooms : Option (List Int) := none
  is_business : Option Bool := none
  district : Option (List String) := none
  city : Option (List String) := none
  limit : Option Nat := none
  direction : Option String := none
  id : Option Int := none
deriving DecidableEq, Repr

/-- Truthiness of an `Optional[List[...]]` field (`None` and `[]` falsy). -/
def optListTruthy {α : Type} : Option (List α) → Bool
  | none => false
  | some l => !l.isEmpty

/-- Truthiness of an `Optional[int]` field (`None` and `0` falsy). -/
def optIntTruthy : Option Int → Bool
  | none => false
  | some n => n ≠ 0

/-- Python `str.capitalize()`. -/
def capitalize (s : String) : String :=
  match s.data with
  | [] => ""
  | c :: rest => String.mk (c.toUpper :: rest.map Char.toLower)

/-- `DistrictMappingService.get_district_names`: map each id through the
name cache, keeping only truthy (non-empty) names. The cache itself is an
oracle `Int → Option String`. -/
def getDistrictNames (cache : Int → Option String) (ids : List Int) : List String :=
  ids.filterMap fun i =>
    match cache i with
    | some n => if n ≠ "" then some n else none
    | none => none

/-- Lines 172–178: the type filter (key set only when `Types` is truthy). -/
def applyTypes (f : FilterModel) (p : QueryParams) : QueryParams :=
  if optListTruthy f.Types then
    { p with building_type := some (typesExpansion (f.Types.getD [])) }
  else p

/-- `if x is not None: params["min_price"] = x` -/
def setMinPrice (v : Option Int) (p : QueryParams) : QueryParams :=
  match v with
  | none => p
  | some x => { p with min_price := some x }

def setMaxPrice (v : Option Int) (p : QueryParams) : QueryParams :=
  match v with
  | none => p
  | some x => { p with max_price := some x }

def setMinArea (v : Option Int) (p : QueryParams) : QueryParams :=
  match v with
  | none => p
  | some x => { p with min_area := some x }

def setMaxArea (v : Option Int) (p : QueryParams) : QueryParams :=
  match v with
  | none => p
  | some x => { p with max_area := some x }

/-- Lines 181–185: price bounds, each set only when not `None`. -/
def applyPrice (f : FilterModel) (p : QueryParams) : QueryParams :=
  match f.Price with
  | none => p
  | some r => setMaxPrice r.to_ (setMinPrice r.from_ p)

/-- Lines 187–191: area bounds. -/
def applyArea (f : FilterModel) (p : QueryParams) : QueryParams :=
  match f.Area with
  | none => p
  | some r => setMaxArea r.to_ (setMinArea r.from_ p)

/-- Lines 194–195: rooms list when non-empty. -/
def applyRooms (f : FilterModel) (p : QueryParams) : QueryParams :=
  if optListTruthy f.Rooms then { p with rooms := f.Rooms } else p

/-- Lines 198–199: `Agency=True` emits `is_business=False`. -/
def applyAgency (f : FilterModel) (p : QueryParams) : QueryParams :=
  if f.Agency then { p with is_business := some false } else p

/-- Lines 202–205: resolved district names when any resolve. -/
def applyDistricts (cache : Int → Option String) (f : FilterModel) (p : QueryParams) : QueryParams :=
  if optListTruthy f.Districts then
    if (getDistrictNames cache (f.Districts.getD [])).isEmpty then p
    else { p with district := some (getDistrictNames cache (f.Districts.getD [])) }
  else p

/-- Lines 208–216: first region whose id matches; `reg.names[-1]` raises
`IndexError` on an empty names array; name is capitalized. -/
def applyRegion (regions : List DbRegion) (f : FilterModel) (p : QueryParams) :
    Except PyError QueryParams :=
  if f.RegionId ≠ 0 then
    match List.find? (fun r => r.id == f.RegionId) regions with
    | none => .ok p
    | some reg =>
      match reg.names.getLast? with
      | none => .error .indexError
      | some nm => .ok { p with city := some [capitalize nm] }
  else .ok p

/-- `_build_query_filters`. A `None` filter model raises `AttributeError`
at `filter_model.Types`; the stray `print(params["building_type"])` at line
179 raises `KeyError` whenever no type filter was set. -/
def buildQueryFilters (regions : List DbRegion) (cache : Int → Option String)
    (fm : Option FilterModel) : Except PyError QueryParams :=
  match fm with
  | none => .error .attributeError
  | some f =>
    let p := applyTypes f { offer_type := some "RENT" }
    match p.building_type with
    | none => .error .keyError
    | some _ =>
      applyRegion regions f
        (applyDistricts cache f (applyAgency f (applyRooms f (applyArea f (applyPrice f p)))))

/-- `_build_query_params_missed`: filters plus the last-seen id (truthy). -/
def buildQueryParamsMissed (regions : List DbRegion) (cache : Int → Option String)
    (fm : Option FilterModel) (pag : ReadAdvertsRequest) : Except PyError QueryParams :=
  match buildQueryFilters regions cache fm with
  | .error e => .error e
  | .ok p =>
    if optIntTruthy pag.LastViewId then .ok { p with id := pag.LastViewId }
    else .ok p

/-- `_build_query_params_pagination`: filters plus `limit=10` and the cursor
direction/anchor (lines 242–248). -/
def buildQueryParamsPagination (regions : List DbRegion) (cache : Int → Option String)
    (fm : Option FilterModel) (pag : ReadAdvertsRequest) : Except PyError QueryParams :=
  match buildQueryFilters regions cache fm with
  | .error e => .error e
  | .ok p =>
    let p := { p with limit := some 10 }
    if optIntTruthy pag.AdvertId then
      .ok { p with
              direction := some (if pag.Direction = LoadAdvertsDirection.Prev then "after" else "before")
              id := pag.AdvertId }
    else if pag.Direction = LoadAdvertsDirection.Latest then
      .ok { p with direction := some "latest" }
    else
      .ok p

/-! ## External fetch (`get_listings`, `get_missed`)

`client.get` either raises or yields a response with a status code; reading
the JSON body may itself raise.  The inner `try` of each method wraps the
GET, the status check and the body access; its `except Exception` handler
catches *every* `PyError` — including `httpx.TimeoutException`, which is a
subclass of `Exception`.  Only exceptions raised outside the inner `try`
(parameter building, client setup) reach the outer handlers. -/

/-- Outcome of `client.get(...)` plus `resp.json()`: the call raised, or a
status code arrived together with the (possibly undecodable) body. -/
inductive FetchResult (β : Type) where
  | raise : PyError → FetchResult β
  | response : Nat → Except PyError β → FetchResult β

/-- The outer handlers of both methods: `except httpx.TimeoutException`
first, then `except Exception`. -/
def outerHandler (e : PyError) : ApiException :=
  match e with
  | .timeoutException => ⟨"External listings API timeout"⟩
  | _ => ⟨"Internal error in listings service"⟩

/-- `get_listings` (lines 127–160): `buildResult` is the outcome of
`_build_query_params_pagination`, `fetch` the outcome of the GET.  The
listings body is `data.get("items", [])`, modelled as an optional list. -/
def getListings (buildResult : Except PyError QueryParams)
    (fetch : FetchResult (Option (List Listing))) : Except ApiException (List Listing) :=
  match buildResult with
  | .error e => .error (outerHandler e)
  | .ok _ =>
    let results : List Listing :=
      match fetch with
      | .raise _ => []                          -- inner `except Exception`
      | .response status body =>
        if status = 200 then
          match body with
          | .ok items => items.getD []          -- data.get("items", [])
          | .error _ => []                      -- resp.json() raised
        else []                                 -- non-200: log, empty result
    .ok results

/-- `get_missed` (lines 96–125): the count body is `data.get("total", 0)`. -/
def getMissed (buildResult : Except PyError QueryParams)
    (fetch : FetchResult (Option Int)) : Except ApiException Int :=
  match buildResult with
  | .error e => .error (outerHandler e)
  | .ok _ =>
    let total : Int :=
      match fetch with
      | .raise _ => 0                           -- inner `except Exception`
      | .response status body =>
        if status = 200 then
          match body with
          | .ok t => t.getD 0                   -- data.get("total", 0)
          | .error _ => 0
        else 0
    .ok total

/-! ## Listing mapper (`map_listing_to_advert`, `get_listings_mapped`)

`AdvertModel` field types follow `api_schemas.py`; `area`/`price` are
numeric pass-throughs (no arithmetic is performed on them), embedded as
`Int`.  Field validation models pydantic's checks for the value shapes that
actually occur: the exact coercion rules for exotic shapes (numeric strings
etc.) are irrelevant here because every validator failure collapses to the
same dropped record. -/

structure AdvertModel where
  id : Int
  sourceId : Int
  typeId : Int
  url : String
  regionId : Int
  region : String
  district : Option String
  title : String
  photos : List String
  rooms : Option Int
  area : Option Int
  price : Option Int
  currency : String
  extPrice : Option String
  agency : Bool
  date : Int
  createdAt : Int
  validTo : Int
deriving DecidableEq, Repr

/-- pydantic `int` field: accepts an integer (bools and `None` rejected). -/
def asIntField : DynVal → Except PyError Int
  | .vint n => .ok n
  | _ => .error .valueError

/-- pydantic `str` field. -/
def asStrField : DynVal → Except PyError String
  | .vstr s => .ok s
  | _ => .error .valueError

/-- pydantic `Optional[str]` field. -/
def asOptStrField : DynVal → Except PyError (Option String)
  | .vnull => .ok none
  | .vstr s => .ok (some s)
  | _ => .error .valueError

/-- pydantic `Optional[int]` / optional numeric field. -/
def asOptIntField : DynVal → Except PyError (Option Int)
  | .vnull => .ok none
  | .vint n => .ok (some n)
  | _ => .error .valueError

/-- pydantic `bool` field (lax mode admits 0/1). -/
def asBoolField : DynVal → Except PyError Bool
  | .vbool b => .ok b
  | .vint 0 => .ok false
  | .vint 1 => .ok true
  | _ => .error .valueError

/-- pydantic `List[str]` field. -/
def asStrList : List DynVal → Except PyError (List String)
  | [] => .ok []
  | v :: rest =>
    match asStrField v with
    | .error e => .error e
    | .ok s =>
      match asStrList rest with
      | .error e => .error e
      | .ok ss => .ok (s :: ss)

/-- `self.source_mapping.get(source, 0)`; a non-hashable key (list) raises
`TypeError`, any other non-matching key yields the default 0. -/
def sourceIdOf : DynVal → Except PyError Int
  | .vlist _ => .error .typeError
  | .vstr s =>
    .ok (if s = "olx" then 1 else if s = "otodom" then 2 else if s = "gratka" then 5
         else if s = "domiporta" then 4 else if s = "morizon" then 3
         else if s = "gumtree" then 6 else 0)
  | _ => .ok 0

/-- `self.type_mapping.get(offer_type, 1)`. -/
def typeIdOf : DynVal → Except PyError Int
  | .vlist _ => .error .typeError
  | .vstr s => .ok (if s = "RENT" then 1 else if s = "SALE" then 2 else 1)
  | _ => .ok 1

/-- Line 258: `[listing.get("photos_urls", [])[0]] if listing.get("photos_urls") else []` -/
def photosStep (listing : Listing) : Except PyError (List DynVal) :=
  if truthy (dictGet listing "photos_urls" .vnull) then
    match subscript0 (dictGet listing "photos_urls" (.vlist [])) with
    | .error e => .error e
    | .ok x => .ok [x]
  else .ok []

/-- The body of `map_listing_to_advert`'s `try` block (lines 256–291):
every step that can raise is sequenced explicitly. -/
def mapListingCore (now : PyDatetime) (listing : Listing) : Except PyError AdvertModel :=
  match photosStep listing with
  | .error e => .error e
  | .ok photosRaw =>
  let created_time := parseDatetimeDyn now (dictGet listing "created_time" .vnull)
  let valid_to_time := parseDatetimeDyn now (dictGet listing "valid_to_time" .vnull)
  let parsed_at := parseDatetimeDyn now (dictGet listing "parsed_at" .vnull)
  match sourceIdOf (dictGet listing "source" (.vstr "unknown")) with
  | .error e => .error e
  | .ok source_id =>
  match typeIdOf (dictGet listing "offer_type" (.vstr "RENT")) with
  | .error e => .error e
  | .ok type_id =>
  match asIntField (dictGet listing "id" (.vint 0)) with
  | .error e => .error e
  | .ok idVal =>
  match asStrField (dictGet listing "url" (.vstr "")) with
  | .error e => .error e
  | .ok url =>
  match asIntField (dictGet listing "region_id" (.vint 0)) with
  | .error e => .error e
  | .ok region_id =>
  match asStrField (pyOr (dictGet listing "city" (.vstr "")) (dictGet listing "region" (.vstr ""))) with
  | .error e => .error e
  | .ok region =>
  match asOptStrField (pyOr (dictGet listing "district" (.vstr "")) (.vstr "")) with
  | .error e => .error e
  | .ok district =>
  match asStrField (dictGet listing "title" (.vstr "")) with
  | .error e => .error e
  | .ok title =>
  match asStrList photosRaw with
  | .error e => .error e
  | .ok photos =>
  match asOptIntField (dictGet listing "rooms" (.vint 0)) with
  | .error e => .error e
  | .ok rooms =>
  match asOptIntField (dictGet listing "area_m2" .vnull) with
  | .error e => .error e
  | .ok area =>
  match asOptIntField (dictGet listing "price" .vnull) with
  | .error e => .error e
  | .ok price =>
  match asStrField (dictGet listing "currency_code" (.vstr "zl")) with
  | .error e => .error e
  | .ok currency =>
  match asBoolField (dictGet listing "is_business" (.vbool true)) with
  | .error e => .error e
  | .ok agency =>
  .ok {
    id := idVal
    sourceId := source_id
    typeId := type_id
    url := url
    regionId := region_id
    region := region
    district := district
    title := title
    photos := photos
    rooms := rooms
    area := area
    price := price
    currency := currency
    extPrice := none
    agency := agency
    date := timestampMillis parsed_at
    createdAt := timestampMillis created_time
    -- line 290: `if valid_to_time else ...` — `_parse_datetime` always
    -- returns a datetime, and datetimes are always truthy, so the
    -- `created_time` fallback is dead code.
    validTo :=
      if datetimeTruthy valid_to_time then timestampMillis valid_to_time
      else timestampMillis created_time }

/-- `map_listing_to_advert`: the `except Exception` handler returns `None`
for any failing record. -/
def mapListingToAdvert (now : PyDatetime) (listing : Listing) : Option AdvertModel :=
  match mapListingCore now listing with
  | .ok a => some a
  | .error _ => none

/-- `get_listings_mapped`: fetch, map each record, keep the non-`None`
results; any exception (including the `ApiException` from `get_listings`)
is caught and yields `[]`. -/
def getListingsMapped (buildResult : Except PyError QueryParams)
    (fetch : FetchResult (Option (List Listing))) (now : PyDatetime) : List AdvertModel :=
  match getListings buildResult fetch with
  | .error _ => []
  | .ok listings => listings.filterMap (mapListingToAdvert now)

/-! ## Concrete inputs used by the theorems below -/

/-- An empty district-name cache. -/
def noCache : Int → Option String := fun _ => none

/-- A fixed "current processing time" (`datetime.utcnow()` at call time). -/
def nowT : PyDatetime := ⟨2024, 6, 15, 12, 0, 0, 0⟩

/-- The params actually built on the success path (default record if the
builder raised); `r = .ok (builtParams r)` certifies success. -/
def builtParams (r : Except PyError QueryParams) : QueryParams :=
  match r with
  | .ok p => p
  | .error _ => {}

/-- A provider record with a parsable `created_time` and no `valid_to_time`. -/
def c2Listing : Listing := [("created_time", .vstr "2024-01-01T00:00:00Z")]

/-- A filter with no type filter set (`Types` is `None`). -/
def c3Fm : FilterModel := { CountryId := 1, RegionId := 0 }

/-- A pagination request with no anchor and direction `Latest`. -/
def pagLatest : ReadAdvertsRequest := { Direction := LoadAdvertsDirection.Latest }

/-- A filter whose `Price` range was constructed with both bounds omitted
by the caller, so pydantic filled the defaults `0` / `2**31 - 1`. -/
def c5Fm : FilterModel :=
  { CountryId := 1, RegionId := 0, Types := some [2], Price := some (mkRangeModel none none) }

/-- The spec's end-to-end example filter: `RegionId=5`,
`Price={from:1000,to:3000}` (plus a type filter so the builder survives the
stray `print`). -/
def c6Fm : FilterModel :=
  { CountryId := 1, RegionId := 5, Types := some [2], Price := some ⟨some 1000, some 3000⟩ }

/-- Region 5 with a names array whose last entry resolves the city. -/
def c6Regions : List DbRegion := [⟨5, ["warszawa", "warsaw"]⟩]

/-- `PaginationRequest{Direction=Next, AdvertId=42}`. -/
def pag42 : ReadAdvertsRequest := { AdvertId := some 42, Direction := LoadAdvertsDirection.Next }

/-- An anchor advert id of `0`: given, but falsy in Python. -/
def pag0 : ReadAdvertsRequest := { AdvertId := some 0, Direction := LoadAdvertsDirection.Next }

/-- An agency-only filter. -/
def c7Fm : FilterModel := { CountryId := 1, RegionId := 0, Types := some [1], Agency := true }

/-- A type filter mixing a mapped id (1) and an unmapped id (99). -/
def c8Fm : FilterModel := { CountryId := 1, RegionId := 0, Types := some [1, 99] }

/-- A malformed provider record: `photos_urls` is an `int`, so
`listing.get("photos_urls", [])[0]` raises `TypeError`. -/
def c9Bad : Listing := [("photos_urls", .vint 5)]

/-- A minimal well-formed provider record (all fields defaulted). -/
def emptyListing : Listing := []

/-- A record that carries `is_business=false`. -/
def c10Listing : Listing := [("is_business", .vbool false)]

/-- A placeholder advert for projecting out of a successful mapping. -/
def dummyAdvert : AdvertModel :=
  { id := 0, sourceId := 0, typeId := 0, url := "", regionId := 0, region := ""
    district := none, title := "", photos := [], rooms := none, area := none
    price := none, currency := "", extPrice := none, agency := false
    date := 0, createdAt := 0, validTo := 0 }

/-- The advert actually produced on the success path;
`r = some (mappedOrDummy r)` certifies success. -/
def mappedOrDummy (r : Option AdvertModel) : AdvertModel := r.getD dummyAdvert

/-! ## Helper lemmas: how the builder chain treats each parameter -/

/-- The parameters a claim below inspects, bundled for field tracking. -/
structure CoreView where
  min_price : Option Int
  max_price : Option Int
  min_area : Option Int
  max_area : Option Int
  is_business : Option Bool
  building_type : Option (List String)
  limit : Option Nat
  direction : Option String
  id : Option Int
deriving DecidableEq, Repr

def coreFields (p : QueryParams) : CoreView :=
  { min_price := p.min_price, max_price := p.max_price, min_area := p.min_area
    max_area := p.max_area, is_business := p.is_business, building_type := p.building_type
    limit := p.limit, direction := p.direction, id := p.id }

/-- `new` when present, else `old` (effect of a conditional dict write). -/
def overrideO (new old : Option Int) : Option Int :=
  match new with
  | some v => some v
  | none => old

lemma overrideO_none (new : Option Int) : overrideO new none = new := by
  cases new <;> rfl

lemma coreFields_applyPrice (f : FilterModel) (q : QueryParams) :
    coreFields (applyPrice f q) =
      { coreFields q with
          min_price := overrideO (f.Price.bind RangeModel.from_) (coreFields q).min_price
          max_price := overrideO (f.Price.bind RangeModel.to_) (coreFields q).max_price } := by
  unfold applyPrice
  rcases f.Price with _ | ⟨fr, tv⟩
  · rfl
  · rcases fr with _ | v <;> rcases tv with _ | w <;> rfl

lemma coreFields_applyArea (f : FilterModel) (q : QueryParams) :
    coreFields (applyArea f q) =
      { coreFields q with
          min_area := overrideO (f.Area.bind RangeModel.from_) (coreFields q).min_area
          max_area := overrideO (f.Area.bind RangeModel.to_) (coreFields q).max_area } := by
  unfold applyArea
  rcases f.Area with _ | ⟨fr, tv⟩
  · rfl
  · rcases fr with _ | v <;> rcases tv with _ | w <;> rfl

lemma coreFields_applyRooms (f : FilterModel) (q : QueryParams) :
    coreFields (applyRooms f q) = coreFields q := by
  unfold applyRooms
  split <;> rfl

lemma coreFields_applyAgency (f : FilterModel) (q : QueryParams) :
    coreFields (applyAgency f q) =
      { coreFields q with
          is_business := if f.Agency then some false else (coreFields q).is_business } := by
  unfold applyAgency
  cases hA : f.Agency
  · simp [hA]
  · simp [hA]
    rfl

lemma coreFields_applyDistricts (cache : Int → Option String) (f : FilterModel) (q : QueryParams) :
    coreFields (applyDistricts cache f q) = coreFields q := by
  unfold applyDistricts
  split
  · split <;> rfl
  · rfl

lemma coreFields_applyRegion_ok {regions : List DbRegion} {f : FilterModel}
    {q params : QueryParams} (h : applyRegion regions f q = .ok params) :
    coreFields params = coreFields q := by
  unfold applyRegion at h
  split at h
  · split at h
    · injection h with h2
      rw [← h2]
    · split at h
      · exact absurd h (by simp)
      · injection h with h2
        rw [← h2]
        rfl
  · injection h with h2
    rw [← h2]

/-- Success of the builder forces a truthy `Types` (otherwise the stray
`print(params["building_type"])` raises `KeyError`). -/
lemma buildQueryFilters_types_truthy {regions : List DbRegion} {cache : Int → Option String}
    {f : FilterModel} {params : QueryParams}
    (h : buildQueryFilters regions cache (some f) = .ok params) :
    optListTruthy f.Types = true := by
  unfold buildQueryFilters applyTypes at h
  by_cases hT : optListTruthy f.Types
  · exact hT
  · simp [hT] at h

/-- On a truthy `Types`, the builder is the apply-chain on the seeded
record. -/
lemma buildQueryFilters_eq {regions : List DbRegion} {cache : Int → Option String}
    {f : FilterModel} (hT : optListTruthy f.Types = true) :
    buildQueryFilters regions cache (some f) =
      applyRegion regions f (applyDistricts cache f (applyAgency f (applyRooms f (applyArea f
        (applyPrice f { offer_type := some "RENT"
                        building_type := some (typesExpansion (f.Types.getD [])) }))))) := by
  unfold buildQueryFilters applyTypes
  simp [hT]

/-- Master decomposition: on success, every claim-relevant parameter of the
built filter query in terms of the filter model. -/
lemma buildQueryFilters_core {regions : List DbRegion} {cache : Int → Option String}
    {f : FilterModel} {params : QueryParams}
    (h : buildQueryFilters regions cache (some f) = .ok params) :
    optListTruthy f.Types = true ∧
    coreFields params =
      { min_price := f.Price.bind RangeModel.from_
        max_price := f.Price.bind RangeModel.to_
        min_area := f.Area.bind RangeModel.from_
        max_area := f.Area.bind RangeModel.to_
        is_business := if f.Agency then some false else none
        building_type := some (typesExpansion (f.Types.getD []))
        limit := none, direction := none, id := none } := by
  have hT := buildQueryFilters_types_truthy h
  refine ⟨hT, ?_⟩
  rw [buildQueryFilters_eq hT] at h
  rw [coreFields_applyRegion_ok h, coreFields_applyDistricts, coreFields_applyAgency,
    coreFields_applyRooms, coreFields_applyArea, coreFields_applyPrice]
  simp only [coreFields, overrideO_none]

/-- Membership in the building-type expansion is exactly membership in some
reverse-mapping entry of a requested id. -/
lemma mem_typesExpansion (l : List Int) (s : String) :
    s ∈ typesExpansion l ↔
      ∃ t, t ∈ l ∧ ∃ bts, reverse_building_type_mapping t = some bts
        ∧ s ∈ bts.map BuildingType.val := by
  unfold typesExpansion
  rw [List.mem_flatMap]
  constructor
  · rintro ⟨t, ht, hs⟩
    refine ⟨t, ht, ?_⟩
    cases hr : reverse_building_type_mapping t with
    | none => rw [hr] at hs; simp at hs
    | some bts => rw [hr] at hs; exact ⟨bts, rfl, hs⟩
  · rintro ⟨t, ht, bts, hr, hs⟩
    refine ⟨t, ht, ?_⟩
    rw [hr]
    exact hs

/-- A successful mapping pins the advert's `agency` to the validated
`is_business` field (or its `True` default). -/
lemma mapListingCore_agency {now : PyDatetime} {listing : Listing} {a : AdvertModel}
    (h : mapListingCore now listing = .ok a) :
    asBoolField (dictGet listing "is_business" (.vbool true)) = .ok a.agency := by
  unfold mapListingCore at h
  repeat' split at h
  all_goals try (injection h; done)
  all_goals injection h with h2
  all_goals rw [h2.symm]
  all_goals simp_all

/-! ## The claims -/

/-- C1: the claim says a transport-level timeout during the page fetch is
surfaced as `ApiException("External listings API timeout")`.  In the code
the GET sits inside an inner `try` whose `except Exception` catches
`httpx.TimeoutException` too, so `get_listings` returns `[]` (and
`get_missed` returns `0`) for *every* exception the fetch raises — the
outer timeout handler is unreachable from the fetch. -/
theorem C1_fetch_timeout_swallowed (p : QueryParams) (e : PyError) :
    getListings (.ok p) (.raise e) = .ok [] ∧ getMissed (.ok p) (.raise e) = .ok 0 :=
  ⟨rfl, rfl⟩

/-- C2: for the record `{"created_time": "2024-01-01T00:00:00Z"}` with no
`valid_to_time`, the claim says `validTo = createdAt`; the code maps
`createdAt` to 2024-01-01 (1704067200000 ms) but `validTo` to the current
processing time (2024-06-15T12:00 here, 1718452800000 ms), because
`_parse_datetime(None)` returns the truthy `utcnow()` and the `created_time`
fallback branch never runs. -/
theorem C2_validTo_falls_back_to_now :
    (mapListingToAdvert nowT c2Listing).map (fun a => (a.createdAt, a.validTo))
        = some (1704067200000, 1718452800000)
      ∧ timestampMillis nowT = 1718452800000
      ∧ (1718452800000 : Int) ≠ 1704067200000 :=
  ⟨rfl, rfl, by decide⟩

/-- C3: the claim says a null filter, or one without a type filter, builds
fine and returns the latest listings.  In the code a `None` filter raises
`AttributeError` at `filter_model.Types`, and a filter with `Types`
absent/empty hits the stray `print(params["building_type"])` (`KeyError`);
both reach the outer `except Exception` and `get_listings` raises
`ApiException("Internal error in listings service")`. -/
theorem C3_missing_type_filter_internal_error :
    getListings (buildQueryParamsPagination [] noCache none pagLatest)
        (.response 200 (.ok (some []))) = .error ⟨"Internal error in listings service"⟩
      ∧ buildQueryFilters [] noCache (some c3Fm) = .error .keyError
      ∧ getListings (buildQueryParamsPagination [] noCache (some c3Fm) pagLatest)
          (.response 200 (.ok (some []))) = .error ⟨"Internal error in listings service"⟩ :=
  ⟨rfl, rfl, rfl⟩

/-- C4: on any non-200 status, `get_listings` yields `.ok []` and
`get_missed` yields `.ok 0` — degraded values, never an exception. -/
theorem C4_non200_degrades_to_empty (p : QueryParams) (s : Nat)
    (bodyL : Except PyError (Option (List Listing))) (bodyM : Except PyError (Option Int))
    (h : s ≠ 200) :
    getListings (.ok p) (.response s bodyL) = .ok []
      ∧ getMissed (.ok p) (.response s bodyM) = .ok 0 := by
  unfold getListings getMissed
  simp [h]

/-- C4 witness: a 503 with an undecodable listings body and a decodable
count body. -/
theorem C4_witness_503 :
    getListings (.ok {}) (.response 503 (.error .jsonError)) = .ok []
      ∧ getMissed (.ok {}) (.response 503 (.ok (some 7))) = .ok 0 :=
  C4_non200_degrades_to_empty {} 503 (.error .jsonError) (.ok (some 7)) (by decide)

/-- C5 counterexample: `c5Fm`'s price range was constructed with both
bounds omitted (`mkRangeModel none none`), yet the built query carries
`min_price=0` and `max_price=2147483647` — the schema defaults are sent
upstream, refuting "the defaults 0 and INT_MAX are never sent". -/
theorem C5_counterexample_defaults_sent :
    buildQueryFilters [] noCache (some c5Fm)
        = .ok (builtParams (buildQueryFilters [] noCache (some c5Fm)))
      ∧ (builtParams (buildQueryFilters [] noCache (some c5Fm))).min_price = some 0
      ∧ (builtParams (buildQueryFilters [] noCache (some c5Fm))).max_price = some 2147483647 :=
  ⟨rfl, rfl, rfl⟩

/-- C5 (amended): a price/area bound parameter is emitted iff the range
object is present and that bound's value is non-null; since the schema
defaults are the non-null `0`/`2**31-1`, omitted bounds are sent as those
values and only an explicit `null` suppresses a bound. -/
theorem C5_bounds_sent_iff_not_null (regions : List DbRegion) (cache : Int → Option String)
    (fm : FilterModel) (params : QueryParams)
    (h : buildQueryFilters regions cache (some fm) = .ok params) :
    params.min_price = fm.Price.bind RangeModel.from_
      ∧ params.max_price = fm.Price.bind RangeModel.to_
      ∧ params.min_area = fm.Area.bind RangeModel.from_
      ∧ params.max_area = fm.Area.bind RangeModel.to_ := by
  obtain ⟨-, hc⟩ := buildQueryFilters_core h
  exact ⟨congrArg CoreView.min_price hc, congrArg CoreView.max_price hc,
    congrArg CoreView.min_area hc, congrArg CoreView.max_area hc⟩

/-- C5 witness: explicit bounds 1000/3000 are sent, absent area bounds are
not. -/
theorem C5_witness :
    (builtParams (buildQueryFilters c6Regions noCache (some c6Fm))).min_price = some 1000
      ∧ (builtParams (buildQueryFilters c6Regions noCache (some c6Fm))).max_price = some 3000
      ∧ (builtParams (buildQueryFilters c6Regions noCache (some c6Fm))).min_area = none
      ∧ (builtParams (buildQueryFilters c6Regions noCache (some c6Fm))).max_area = none := by
  exact C5_bounds_sent_iff_not_null c6Regions noCache c6Fm _ rfl

/-- C6 counterexample: with the anchor advert id `0` given
(`AdvertId=some 0`, `Direction=Next`) the claim demands
`direction=before` with the id included; the code treats the falsy `0` as
"no anchor" and, since the direction is not `Latest`, emits neither a
`direction` nor an `id` parameter. -/
theorem C6_counterexample_zero_anchor :
    buildQueryParamsPagination c6Regions noCache (some c6Fm) pag0
        = .ok (builtParams (buildQueryParamsPagination c6Regions noCache (some c6Fm) pag0))
      ∧ (builtParams (buildQueryParamsPagination c6Regions noCache (some c6Fm) pag0)).direction = none
      ∧ (builtParams (buildQueryParamsPagination c6Regions noCache (some c6Fm) pag0)).id = none :=
  ⟨rfl, rfl, rfl⟩

/-- C6 (amended): the built listings query always has `limit=10`; when a
*non-zero* anchor advert id is given, direction is `after` for `Prev` and
`before` otherwise with the anchor id included; when the anchor is absent
(or the falsy `0`) and the direction is `Latest`, direction is `latest`
with no anchor id. -/
theorem C6_pagination_params (regions : List DbRegion) (cache : Int → Option String)
    (fm : FilterModel) (pag : ReadAdvertsRequest) (params : QueryParams)
    (h : buildQueryParamsPagination regions cache (some fm) pag = .ok params) :
    params.limit = some 10
      ∧ (∀ a, pag.AdvertId = some a → a ≠ 0 →
          params.direction
              = some (if pag.Direction = LoadAdvertsDirection.Prev then "after" else "before")
            ∧ params.id = some a)
      ∧ (optIntTruthy pag.AdvertId = false → pag.Direction = LoadAdvertsDirection.Latest →
          params.direction = some "latest" ∧ params.id = none) := by
  unfold buildQueryParamsPagination at h
  cases hb : buildQueryFilters regions cache (some fm) with
  | error e =>
    rw [hb] at h
    exact absurd h (by simp)
  | ok q =>
    rw [hb] at h
    obtain ⟨-, hc⟩ := buildQueryFilters_core hb
    have hqid : q.id = none := congrArg CoreView.id hc
    by_cases hA : optIntTruthy pag.AdvertId
    · simp only [hA, if_true] at h
      injection h with h2
      subst h2
      refine ⟨rfl, fun a hAi _ => ⟨rfl, by simp [hAi]⟩, fun hfalse _ => ?_⟩
      rw [hA] at hfalse
      exact absurd hfalse (by simp)
    · have hA0 : optIntTruthy pag.AdvertId = false := by
        simpa using hA
      simp only [hA0, Bool.false_eq_true, if_false] at h
      by_cases hL : pag.Direction = LoadAdvertsDirection.Latest
      · rw [if_pos hL] at h
        injection h with h2
        subst h2
        refine ⟨rfl, fun a hAi ha => ?_, fun _ _ => ⟨rfl, hqid⟩⟩
        rw [hAi] at hA0
        simp [optIntTruthy, ha] at hA0
      · rw [if_neg hL] at h
        injection h with h2
        subst h2
        refine ⟨rfl, fun a hAi ha => ?_, fun _ hLat => absurd hLat hL⟩
        rw [hAi] at hA0
        simp [optIntTruthy, ha] at hA0

/-- C6 witness: the spec's end-to-end example — `Direction=Next`,
`AdvertId=42` yields `limit=10`, `direction=before`, `id=42`. -/
theorem C6_witness :
    (builtParams (buildQueryParamsPagination c6Regions noCache (some c6Fm) pag42)).limit = some 10
      ∧ (builtParams (buildQueryParamsPagination c6Regions noCache (some c6Fm) pag42)).direction
          = some "before"
      ∧ (builtParams (buildQueryParamsPagination c6Regions noCache (some c6Fm) pag42)).id
          = some 42 := by
  obtain ⟨h1, h2, -⟩ := C6_pagination_params c6Regions noCache c6Fm pag42 _ rfl
  obtain ⟨hd, hi⟩ := h2 42 rfl (by decide)
  exact ⟨h1, hd.trans (by decide), hi⟩

/-- C7: on every successfully built query, `Agency=true` in the filter
emits `is_business=false`, and `Agency=false` emits no `is_business`
parameter at all. -/
theorem C7_agency_flag_inverted (regions : List DbRegion) (cache : Int → Option String)
    (fm : FilterModel) (params : QueryParams)
    (h : buildQueryFilters regions cache (some fm) = .ok params) :
    (fm.Agency = true → params.is_business = some false)
      ∧ (fm.Agency = false → params.is_business = none) := by
  obtain ⟨-, hc⟩ := buildQueryFilters_core h
  have hib := congrArg CoreView.is_business hc
  constructor <;> intro hA <;> rw [hA] at hib <;> simpa using hib

/-- C7 witness. -/
theorem C7_witness :
    (builtParams (buildQueryFilters [] noCache (some c7Fm))).is_business = some false :=
  (C7_agency_flag_inverted [] noCache c7Fm _ rfl).1 rfl

/-- C8: on every successfully built query with a non-empty type-id list,
the emitted `building_type` list is the expansion whose members are exactly
the reverse-mapping entries of the mapped ids (ids without an entry
contribute nothing). -/
theorem C8_building_type_expansion (regions : List DbRegion) (cache : Int → Option String)
    (fm : FilterModel) (params : QueryParams) (l : List Int)
    (hl : fm.Types = some l) (_hne : l ≠ [])
    (h : buildQueryFilters regions cache (some fm) = .ok params) :
    params.building_type = some (typesExpansion l)
      ∧ ∀ s, s ∈ typesExpansion l ↔
          ∃ t, t ∈ l ∧ ∃ bts, reverse_building_type_mapping t = some bts
            ∧ s ∈ bts.map BuildingType.val := by
  obtain ⟨-, hc⟩ := buildQueryFilters_core h
  have hbt := congrArg CoreView.building_type hc
  exact ⟨by simpa [hl] using hbt, fun s => mem_typesExpansion l s⟩

/-- C8 witness: ids `[1, 99]` — only the mapped id 1 contributes. -/
theorem C8_witness :
    (builtParams (buildQueryFilters [] noCache (some c8Fm))).building_type
      = some (typesExpansion [1, 99]) :=
  (C8_building_type_expansion [] noCache c8Fm _ [1, 99] rfl (by decide) rfl).1

/-- C9: a record whose mapping fails is dropped and the rest of the batch
is still mapped and returned — one malformed record never fails the page. -/
theorem C9_bad_record_dropped (now : PyDatetime) (p : QueryParams)
    (pre post : List Listing) (bad : Listing)
    (hbad : mapListingToAdvert now bad = none) :
    getListingsMapped (.ok p) (.response 200 (.ok (some (pre ++ bad :: post)))) now
      = pre.filterMap (mapListingToAdvert now) ++ post.filterMap (mapListingToAdvert now) := by
  unfold getListingsMapped getListings
  simp [List.filterMap_append, hbad]

/-- C9 witness: the malformed `photos_urls=5` record in the middle of the
batch is dropped; both well-formed neighbours survive. -/
theorem C9_witness :
    getListingsMapped (.ok {}) (.response 200 (.ok (some [emptyListing, c9Bad, emptyListing]))) nowT
      = List.filterMap (mapListingToAdvert nowT) [emptyListing]
        ++ List.filterMap (mapListingToAdvert nowT) [emptyListing] :=
  C9_bad_record_dropped nowT {} [emptyListing] [emptyListing] c9Bad rfl

/-- C10: on the inbound path a record without `is_business` maps to
`agency=true`, and a record carrying a boolean `is_business` maps to that
value verbatim — no inversion. -/
theorem C10_agency_inbound_verbatim (now : PyDatetime) (l : Listing) (a : AdvertModel)
    (h : mapListingToAdvert now l = some a) :
    (dictLookup l "is_business" = none → a.agency = true)
      ∧ (∀ b, dictLookup l "is_business" = some (.vbool b) → a.agency = b) := by
  have hcore : mapListingCore now l = .ok a := by
    unfold mapListingToAdvert at h
    cases hc : mapListingCore now l <;> rw [hc] at h <;> simp_all
  have hag := mapListingCore_agency hcore
  have hget : dictGet l "is_business" (.vbool true)
      = (dictLookup l "is_business").getD (.vbool true) := by
    unfold dictGet dictLookup
    cases List.find? (fun p => p.1 == "is_business") l <;> rfl
  constructor
  · intro hn
    rw [hget, hn] at hag
    simpa [asBoolField] using hag.symm
  · intro b hb
    rw [hget, hb] at hag
    simpa [asBoolField] using hag.symm

/-- C10 witness: `is_business=false` maps to `agency=false`. -/
theorem C10_witness :
    (mappedOrDummy (mapListingToAdvert nowT c10Listing)).agency = false :=
  (C10_agency_inbound_verbatim nowT c10Listing _ rfl).2 false rfl

end MojDom
